import Mathlib

/-!
Verification of the ViewEngine REST API demo client (src/viewengine_demo.py)
against its natural-language specification.

The script is a sequential HTTP client: it resolves console inputs to a
retrieval request, submits it, polls for the result in a bounded loop with
fixed 2-second sleeps, and optionally downloads and prints the page data.
The embedding below models the pure data flow of each function, with the
network abstracted as an explicit sequence of HTTP outcomes and the console
output recorded as explicit log entries.
-/

/-- The fixed base URL of the API (src/viewengine_demo.py line 18). -/
def API_BASE_URL : String := "https://www.viewengine.io"

/-- JSON values as produced by response.json().  JSON numbers are modelled as
integers: the demo itself never constructs numeric payloads, and no claim
depends on fractional values. -/
inductive JsonVal where
  | null
  | bool (b : Bool)
  | num (n : Int)
  | str (s : String)
  | arr (items : List JsonVal)
  | obj (fields : List (String × JsonVal))

/-- Python truthiness of a JSON value, as tested by the demo with
code such as the check on line 176 of the source.  None, False, 0, the empty
string, the empty list and the empty dict are falsy. -/
def pyFalsy : JsonVal → Bool
  | JsonVal.null => true
  | JsonVal.bool b => !b
  | JsonVal.num n => n == 0
  | JsonVal.str s => s == ""
  | JsonVal.arr items => items.isEmpty
  | JsonVal.obj fields => fields.isEmpty

/-- Python dict lookup d.get(key) on a parsed JSON object.  Objects parsed by
json.loads have unique keys, so first-match lookup models dict lookup. -/
def lookupField : List (String × JsonVal) → String → Option JsonVal
  | [], _ => none
  | (k, v) :: rest, key => if k = key then some v else lookupField rest key

/-- Whitespace characters removed by Python str.strip() (ASCII model: the
demo only compares against ASCII literals). -/
def pyIsSpace (c : Char) : Bool :=
  c == ' ' || c == '\t' || c == '\n' || c == '\r' || c == '\x0b' || c == '\x0c'

/-- Python str.strip(): drop leading and trailing whitespace. -/
def py_strip (s : String) : String :=
  String.mk (((s.data.dropWhile pyIsSpace).reverse.dropWhile pyIsSpace).reverse)

/-- Python str.lower() (ASCII model: Char.toLower lowercases exactly the
letters A-Z, which covers every comparison made by the demo). -/
def py_lower (s : String) : String :=
  String.mk (s.data.map Char.toLower)

/-- URL resolution in run_demo (source lines 62-64): the prompt answer is
stripped; an empty answer defaults to https://example.com. -/
def resolve_url (url_input : String) : String :=
  let url := py_strip url_input
  if url = "" then "https://example.com" else url

/-- Force-refresh resolution in run_demo (source lines 66-69): the stripped,
lowercased answer is compared with "y". -/
def resolve_force_refresh (force_refresh_input : String) : Bool :=
  py_lower (py_strip force_refresh_input) == "y"

/-- Mode resolution in run_demo (source lines 71-74): the stripped, lowercased
answer is compared with "community"; anything else resolves to "private". -/
def resolve_mode (mode_input : String) : String :=
  if py_lower (py_strip mode_input) = "community" then "community" else "private"

/-- The retrieval request body (source lines 141-146). -/
structure RetrievalRequest where
  url : String
  timeoutSeconds : Nat
  forceRefresh : Bool
  mode : String

/-- The request body built by submit_retrieve_request (source lines 141-146):
the caller-supplied url, force flag and mode, with a fixed 60-second
timeoutSeconds field. -/
def build_request_body (url : String) (force_refresh : Bool) (mode : String) :
    RetrievalRequest :=
  ⟨url, 60, force_refresh, mode⟩

/-- The request body run_demo sends for the raw console answers: each answer
is resolved (source lines 62-74) and passed to submit_retrieve_request. -/
def demo_request (url_input force_refresh_input mode_input : String) :
    RetrievalRequest :=
  build_request_body (resolve_url url_input)
    (resolve_force_refresh force_refresh_input) (resolve_mode mode_input)

/-- The status-polling endpoint URL for a request id (source line 171). -/
def retrieveStatusUrl (request_id : String) : String :=
  API_BASE_URL ++ "/v1/mcp/retrieve/" ++ request_id

/-- One observable side effect of the poll loop: an HTTP GET to a URL, or a
call to time.sleep for a number of seconds. -/
inductive Event where
  | get (url : String)
  | sleep (seconds : Nat)
deriving DecidableEq

/-- One line printed by poll_for_results, with the arguments that the source
interpolates into the corresponding print call. -/
inductive LogEntry where
  /-- source line 177: attempt counter and the deserialization-failure text -/
  | deserializeFailed (attempt maxAttempts : Nat)
  /-- source line 183: attempt counter, the status value and the message value -/
  | statusLine (attempt maxAttempts : Nat) (status message : JsonVal)
  /-- source line 190: the error value of a failed or canceled result -/
  | terminalError (error : JsonVal)
  /-- source line 195: attempt counter and the message of the caught exception -/
  | errorLine (attempt maxAttempts : Nat) (msg : String)
  /-- source line 198: the timeout warning after the last attempt -/
  | pollTimeout

/-- What one polling iteration observes from the server: either the GET (or
raise_for_status, or response.json()) raised an exception carrying a message,
or a 2xx response parsed to a JSON payload. -/
inductive PollOutcome where
  | exn (msg : String)
  | payload (r : JsonVal)

/-- The message of the AttributeError Python raises when result.get is called
on a truthy non-dict value (source line 181); it is caught by the except on
line 194. -/
def attrErrorMsg (r : JsonVal) : String :=
  let typeName :=
    match r with
    | JsonVal.null => "NoneType"
    | JsonVal.bool _ => "bool"
    | JsonVal.num _ => "int"
    | JsonVal.str _ => "str"
    | JsonVal.arr _ => "list"
    | JsonVal.obj _ => "dict"
  "\x27" ++ typeName ++ "\x27 object has no attribute \x27get\x27"

/-- How one polling iteration ends: either the loop continues to the next
attempt (after printing one line and sleeping 2 seconds), or the function
returns a result immediately (after printing the listed lines, no sleep). -/
inductive StepOutcome where
  | continueStep (entry : LogEntry)
  | finishStep (entries : List LogEntry) (r : JsonVal)

/-- The branch logic of one iteration of poll_for_results (source lines
169-196) applied to the iteration outcome: an exception is logged and the
loop continues (lines 194-196); a falsy payload is logged as a
deserialization failure and the loop continues (lines 176-179); a truthy
dict payload has its status line printed (lines 181-183), then status
"complete" returns it (lines 185-186), status "failed" or "canceled" prints
the error and returns it (lines 188-191), and any other status continues
(line 193); a truthy non-dict payload raises AttributeError at result.get,
which the except catches (lines 194-196). -/
def pollStep (attempt maxAttempts : Nat) : PollOutcome → StepOutcome
  | PollOutcome.exn msg =>
      StepOutcome.continueStep (LogEntry.errorLine attempt maxAttempts msg)
  | PollOutcome.payload r =>
      if pyFalsy r then
        StepOutcome.continueStep (LogEntry.deserializeFailed attempt maxAttempts)
      else
        match r with
        | JsonVal.obj fields =>
            let status := (lookupField fields "status").getD (JsonVal.str "unknown")
            let message := (lookupField fields "message").getD (JsonVal.str "")
            let line := LogEntry.statusLine attempt maxAttempts status message
            match status with
            | JsonVal.str s =>
                if s = "complete" then
                  StepOutcome.finishStep [line] r
                else if s = "failed" ∨ s = "canceled" then
                  StepOutcome.finishStep
                    [line, LogEntry.terminalError
                      ((lookupField fields "error").getD (JsonVal.str "Unknown error"))] r
                else
                  StepOutcome.continueStep line
            | _ => StepOutcome.continueStep line
        | _ =>
            StepOutcome.continueStep
              (LogEntry.errorLine attempt maxAttempts (attrErrorMsg r))

/-- The full observable behaviour of a run of poll_for_results: the HTTP and
sleep events in order, the printed lines in order, and the returned value
(some result, or none for the timeout sentinel). -/
structure PollTrace where
  events : List Event
  log : List LogEntry
  result : Option JsonVal

/-- The loop of poll_for_results (source lines 168-199) over the list of
outcomes of the remaining iterations, carrying the 1-based attempt counter.
Each iteration issues one GET; a continuing iteration then sleeps 2 seconds
(lines 178, 193, 196); a finishing iteration returns immediately (lines 186,
191); an exhausted loop prints the timeout warning and returns None (lines
198-199). -/
def pollAux (url : String) (maxAttempts : Nat) :
    List PollOutcome → Nat → PollTrace
  | [], _ => ⟨[], [LogEntry.pollTimeout], none⟩
  | o :: rest, attempt =>
      match pollStep attempt maxAttempts o with
      | StepOutcome.continueStep entry =>
          let t := pollAux url maxAttempts rest (attempt + 1)
          ⟨Event.get url :: Event.sleep 2 :: t.events, entry :: t.log, t.result⟩
      | StepOutcome.finishStep entries r =>
          ⟨[Event.get url], entries, some r⟩

/-- poll_for_results (source lines 164-199): polls the status endpoint of the
given request id for at most max_attempts iterations.  The server is modelled
as the function giving the outcome of each iteration (server k is the outcome
of attempt k+1). -/
def poll_for_results (server : Nat → PollOutcome) (request_id : String)
    (max_attempts : Nat) : PollTrace :=
  pollAux (retrieveStatusUrl request_id) max_attempts
    ((List.range max_attempts).map server) 1

/-- Recognizer for GET events. -/
def isGetEvent : Event → Bool
  | Event.get _ => true
  | _ => false

/-- Recognizer for sleep events. -/
def isSleepEvent : Event → Bool
  | Event.sleep _ => true
  | _ => false

/-- Number of HTTP GET requests issued during a poll run. -/
def numGets (t : PollTrace) : Nat := t.events.countP isGetEvent

/-- Number of sleeps performed during a poll run. -/
def numSleeps (t : PollTrace) : Nat := t.events.countP isSleepEvent

/-- Whether a poll iteration with this outcome makes the loop continue to the
next attempt: every exception does; a payload continues unless it is a truthy
dict whose status field is the string "complete", "failed" or "canceled". -/
def continuesOutcome : PollOutcome → Bool
  | PollOutcome.exn _ => true
  | PollOutcome.payload r =>
      if pyFalsy r then true
      else
        match r with
        | JsonVal.obj fields =>
            match (lookupField fields "status").getD (JsonVal.str "unknown") with
            | JsonVal.str s =>
                !(s == "complete") && !(s == "failed") && !(s == "canceled")
            | _ => true
        | _ => true

/-- A payload on which the complete-branch of the loop fires: a dict whose
status field is the string "complete" (such a dict is nonempty, hence
truthy). -/
def isCompleteResult : JsonVal → Bool
  | JsonVal.obj fields =>
      match (lookupField fields "status").getD (JsonVal.str "unknown") with
      | JsonVal.str s => s == "complete"
      | _ => false
  | _ => false

/-- A payload on which the failed-or-canceled branch of the loop fires: a
dict whose status field is the string "failed" or "canceled". -/
def isTerminalFailure : JsonVal → Bool
  | JsonVal.obj fields =>
      match (lookupField fields "status").getD (JsonVal.str "unknown") with
      | JsonVal.str s => s == "failed" || s == "canceled"
      | _ => false
  | _ => false

/-- One line printed by submit_retrieve_request, with the arguments the
source interpolates into the corresponding print call. -/
inductive SubmitLog where
  /-- source line 155: the status code and body text of a not-ok response -/
  | apiError (statusCode : Nat) (body : String)
  /-- source line 161: the message of the exception caught on line 160 -/
  | submitError (msg : String)

/-- What the POST to the submit endpoint yields: a completed HTTP response
with its status code, body text and the result of response.json() (error =
the parse exception message when the body is not JSON), or an exception
raised by session.post itself. -/
inductive HttpOutcome where
  | response (statusCode : Nat) (text : String) (jsonBody : Except String JsonVal)
  | exn (msg : String)

/-- requests.Response.ok: true exactly when the status code is below 400 (so
3xx responses count as ok). -/
def response_ok (statusCode : Nat) : Bool := statusCode < 400

/-- submit_retrieve_request (source lines 136-162): builds the request body,
issues the POST, and returns the body it sent together with the printed lines
and the returned value.  A not-ok response is logged with its status code and
body and yields None (lines 154-156); raise_for_status on an ok response
never raises (ok means the code is below 400); a parse failure of
response.json(), like a transport exception, is caught on line 160, logged,
and yields None; otherwise the parsed payload is returned.  The try/except
wrapping the whole body means the function never propagates an exception,
which the total return type of this model reflects. -/
def submit_retrieve_request (url : String) (force_refresh : Bool)
    (mode : String) (outcome : HttpOutcome) :
    RetrievalRequest × List SubmitLog × Option JsonVal :=
  let request_body := build_request_body url force_refresh mode
  match outcome with
  | HttpOutcome.exn msg => (request_body, [SubmitLog.submitError msg], none)
  | HttpOutcome.response code text jsonBody =>
      if response_ok code then
        match jsonBody with
        | Except.ok j => (request_body, [], some j)
        | Except.error msg => (request_body, [SubmitLog.submitError msg], none)
      else
        (request_body, [SubmitLog.apiError code text], none)

/-- Hexadecimal digit character (lowercase, as Python json uses). -/
def hexDigit (n : Nat) : Char :=
  if n < 10 then Char.ofNat (48 + n) else Char.ofNat (87 + n)

/-- Four-digit hexadecimal rendering of a code unit for a \u escape. -/
def hex4 (n : Nat) : List Char :=
  [hexDigit (n / 4096 % 16), hexDigit (n / 256 % 16),
   hexDigit (n / 16 % 16), hexDigit (n % 16)]

/-- The \u escape json.dumps produces for a character outside the printable
ASCII range (ensure_ascii is the default); astral characters become a UTF-16
surrogate pair. -/
def uEscape (c : Char) : List Char :=
  let n := c.toNat
  if n < 65536 then '\\' :: 'u' :: hex4 n
  else
    ('\\' :: 'u' :: hex4 (55296 + (n - 65536) / 1024)) ++
    ('\\' :: 'u' :: hex4 (56320 + (n - 65536) % 1024))

/-- How json.dumps escapes one character inside a string literal. -/
def jsonEscapeChar (c : Char) : List Char :=
  if c = '"' then ['\\', '"']
  else if c = '\\' then ['\\', '\\']
  else if c = '\n' then ['\\', 'n']
  else if c = '\r' then ['\\', 'r']
  else if c = '\t' then ['\\', 't']
  else if c.toNat = 8 then ['\\', 'b']
  else if c.toNat = 12 then ['\\', 'f']
  else if c.toNat < 32 ∨ c.toNat > 126 then uEscape c
  else [c]

/-- A JSON string literal as json.dumps renders it. -/
def pyJsonQuote (s : String) : String :=
  String.mk ('"' :: s.data.flatMap jsonEscapeChar ++ ['"'])

/-- The indentation json.dumps produces for nesting depth lvl when called
with indent=2. -/
def indentStr (lvl : Nat) : String :=
  String.mk (List.replicate (2 * lvl) ' ')

mutual

/-- json.dumps(v, indent=2) at nesting depth lvl (source line 213): scalars
render on one line; a nonempty list or dict opens its bracket, renders each
item on its own line indented one level deeper with ", " as the key
separator and "," as the item separator, and closes the bracket at the
current level; empty containers render as a bracket pair. -/
def dumpsVal : Nat → JsonVal → String
  | _, JsonVal.null => "null"
  | _, JsonVal.bool true => "true"
  | _, JsonVal.bool false => "false"
  | _, JsonVal.num n => toString n
  | _, JsonVal.str s => pyJsonQuote s
  | _, JsonVal.arr [] => "[]"
  | lvl, JsonVal.arr (x :: xs) =>
      "[\n" ++ indentStr (lvl + 1) ++ dumpsVal (lvl + 1) x ++
      dumpsItems (lvl + 1) xs ++ "\n" ++ indentStr lvl ++ "]"
  | _, JsonVal.obj [] => "\x7b\x7d"
  | lvl, JsonVal.obj ((k, v) :: fs) =>
      "\x7b\n" ++ indentStr (lvl + 1) ++ pyJsonQuote k ++ ": " ++
      dumpsVal (lvl + 1) v ++ dumpsFields (lvl + 1) fs ++ "\n" ++
      indentStr lvl ++ "\x7d"

/-- The remaining items of a list being dumped, each preceded by the item
separator and a newline plus indentation. -/
def dumpsItems : Nat → List JsonVal → String
  | _, [] => ""
  | lvl, x :: xs =>
      ",\n" ++ indentStr lvl ++ dumpsVal lvl x ++ dumpsItems lvl xs

/-- The remaining fields of a dict being dumped, each preceded by the item
separator and a newline plus indentation. -/
def dumpsFields : Nat → List (String × JsonVal) → String
  | _, [] => ""
  | lvl, (k, v) :: fs =>
      ",\n" ++ indentStr lvl ++ pyJsonQuote k ++ ": " ++
      dumpsVal lvl v ++ dumpsFields lvl fs

end

/-- json.dumps(page_data, indent=2) as called on source line 213. -/
def json_dumps_indent2 (page_data : JsonVal) : String :=
  dumpsVal 0 page_data

/-- Python string slicing s[:n]: the first n characters (code points). -/
def py_slice_take (s : String) (n : Nat) : String :=
  String.mk (s.data.take n)

/-- The page-content text download_page_data prints for a successfully
fetched and parsed payload (source lines 213-217): the pretty-printed form,
truncated to its first 500 characters plus the marker "..." when it is
longer than 500 characters, and unmodified otherwise. -/
def download_page_data_print (page_data : JsonVal) : String :=
  let pretty_json := json_dumps_indent2 page_data
  if pretty_json.length > 500 then py_slice_take pretty_json 500 ++ "..."
  else pretty_json

/-- The observable outcome of main (source lines 224-242): whether the usage
message was printed, the argument sys.exit was called with (none when main
proceeds past the check), and the key a ViewEngineDemo client was constructed
with (none when no client is ever constructed, hence no HTTP request is ever
issued). -/
structure MainResult where
  usagePrinted : Bool
  exitCode : Option Nat
  clientKey : Option String

/-- The api_key main works with (source lines 228-231): sys.argv[1] when a
command-line argument is present (unstripped), otherwise the stripped answer
to the interactive prompt. -/
def resolved_api_key (argv : List String) (promptAnswer : String) : String :=
  match argv with
  | _ :: key :: _ => key
  | _ => py_strip promptAnswer

/-- main (source lines 224-242): an empty api_key prints the usage message
and exits with status 1 before any client is constructed; otherwise the
demo client is constructed with the key and run. -/
def main_model (argv : List String) (promptAnswer : String) : MainResult :=
  let api_key := resolved_api_key argv promptAnswer
  if api_key = "" then ⟨true, some 1, none⟩
  else ⟨false, none, some api_key⟩

/-- A parsed poll response with status "running", as an always-pending server
answers. -/
def runningResult : JsonVal := JsonVal.obj [("status", JsonVal.str "running")]

/-- A parsed poll response with status "complete". -/
def completeResult : JsonVal :=
  JsonVal.obj [("status", JsonVal.str "complete"),
               ("url", JsonVal.str "https://example.com")]

/-- A parsed poll response with status "failed". -/
def failedResult : JsonVal :=
  JsonVal.obj [("status", JsonVal.str "failed"), ("error", JsonVal.str "boom")]

/-- A server that answers the first poll with "running" and every later poll
with "complete". -/
def demoServerComplete : Nat → PollOutcome :=
  fun j => if j = 0 then PollOutcome.payload runningResult
           else PollOutcome.payload completeResult

/-- A server that answers the first poll with "running" and every later poll
with "failed". -/
def demoServerFailed : Nat → PollOutcome :=
  fun j => if j = 0 then PollOutcome.payload runningResult
           else PollOutcome.payload failedResult

/-- A server that answers every poll with "running". -/
def demoServerRunning : Nat → PollOutcome :=
  fun _ => PollOutcome.payload runningResult

/-- A page payload whose pretty-printed form is longer than 500 characters:
a string of 600 letters. -/
def bigPagePayload : JsonVal := JsonVal.str (String.mk (List.replicate 600 'a'))

/-- A page payload whose pretty-printed form is shorter than 500 characters. -/
def smallPagePayload : JsonVal :=
  JsonVal.obj [("title", JsonVal.str "Example")]

lemma pollStep_continue_iff (a m : Nat) (o : PollOutcome) :
    continuesOutcome o = true ↔ ∃ e, pollStep a m o = StepOutcome.continueStep e := by
  cases o with
  | exn msg => simp [continuesOutcome, pollStep]
  | payload r =>
    by_cases hf : pyFalsy r = true
    · simp [continuesOutcome, pollStep, hf]
    · cases r with
      | null => simp [pyFalsy] at hf
      | bool b => simp [continuesOutcome, pollStep, hf]
      | num n => simp [continuesOutcome, pollStep, hf]
      | str s => simp [continuesOutcome, pollStep, hf]
      | arr items => simp [continuesOutcome, pollStep, hf]
      | obj fields =>
        rcases hst : (lookupField fields "status").getD (JsonVal.str "unknown")
          with _ | b | n | s | items | fs
        · simp [continuesOutcome, pollStep, hf, hst]
        · simp [continuesOutcome, pollStep, hf, hst]
        · simp [continuesOutcome, pollStep, hf, hst]
        · by_cases h1 : s = "complete"
          · simp [continuesOutcome, pollStep, hf, hst, h1]
          · by_cases h2 : s = "failed" ∨ s = "canceled"
            · simp [continuesOutcome, pollStep, hf, hst, h1, h2]
              rcases h2 with h2 | h2 <;> simp [h2]
            · simp [continuesOutcome, pollStep, hf, hst, h1, h2]
              push_neg at h2
              simp [h2.1, h2.2]
        · simp [continuesOutcome, pollStep, hf, hst]
        · simp [continuesOutcome, pollStep, hf, hst]

lemma pollAux_cons_continue (url : String) (m a : Nat) (o : PollOutcome)
    (rest : List PollOutcome) (h : continuesOutcome o = true) :
    ∃ e, pollAux url m (o :: rest) a =
      ⟨Event.get url :: Event.sleep 2 :: (pollAux url m rest (a + 1)).events,
       e :: (pollAux url m rest (a + 1)).log,
       (pollAux url m rest (a + 1)).result⟩ := by
  obtain ⟨e, he⟩ := (pollStep_continue_iff a m o).mp h
  exact ⟨e, by simp [pollAux, he]⟩

lemma pollStep_complete_finish (a m : Nat) (r : JsonVal)
    (h : isCompleteResult r = true) :
    ∃ entries, pollStep a m (PollOutcome.payload r) = StepOutcome.finishStep entries r := by
  cases r with
  | obj fields =>
    cases fields with
    | nil => simp [isCompleteResult, lookupField] at h
    | cons f fs =>
      rcases hst : (lookupField (f :: fs) "status").getD (JsonVal.str "unknown")
        with _ | b | n | s | items | gs <;>
        simp [isCompleteResult, hst] at h
      simp [pollStep, pyFalsy, hst, h]
  | null => simp [isCompleteResult] at h
  | bool b => simp [isCompleteResult] at h
  | num n => simp [isCompleteResult] at h
  | str s => simp [isCompleteResult] at h
  | arr items => simp [isCompleteResult] at h

lemma pollStep_terminal_finish (a m : Nat) (r : JsonVal)
    (h : isTerminalFailure r = true) :
    ∃ entries, pollStep a m (PollOutcome.payload r) = StepOutcome.finishStep entries r := by
  cases r with
  | obj fields =>
    cases fields with
    | nil => simp [isTerminalFailure, lookupField] at h
    | cons f fs =>
      rcases hst : (lookupField (f :: fs) "status").getD (JsonVal.str "unknown")
        with _ | b | n | s | items | gs <;>
        simp [isTerminalFailure, hst] at h
      have hs1 : ¬ s = "complete" := by
        rcases h with h | h <;> simp [h]
      simp [pollStep, pyFalsy, hst, hs1, h]
  | null => simp [isTerminalFailure] at h
  | bool b => simp [isTerminalFailure] at h
  | num n => simp [isTerminalFailure] at h
  | str s => simp [isTerminalFailure] at h
  | arr items => simp [isTerminalFailure] at h

lemma pollAux_cons_finish (url : String) (m a : Nat) (o : PollOutcome)
    (rest : List PollOutcome) (entries : List LogEntry) (r : JsonVal)
    (h : pollStep a m o = StepOutcome.finishStep entries r) :
    pollAux url m (o :: rest) a = ⟨[Event.get url], entries, some r⟩ := by
  simp [pollAux, h]

lemma pollAux_continue_run (url : String) (m : Nat) (os rest : List PollOutcome)
    (a : Nat) (h : ∀ o ∈ os, continuesOutcome o = true) :
    ∃ entries : List LogEntry, entries.length = os.length ∧
      pollAux url m (os ++ rest) a =
        ⟨(List.replicate os.length [Event.get url, Event.sleep 2]).flatten ++
           (pollAux url m rest (a + os.length)).events,
         entries ++ (pollAux url m rest (a + os.length)).log,
         (pollAux url m rest (a + os.length)).result⟩ := by
  induction os generalizing a with
  | nil => exact ⟨[], rfl, by simp⟩
  | cons o os ih =>
    obtain ⟨e, he⟩ := pollAux_cons_continue url m a o (os ++ rest) (h o (by simp))
    obtain ⟨es, hlen, hes⟩ := ih (a + 1) (fun o ho => h o (by simp [ho]))
    refine ⟨e :: es, by simp [hlen], ?_⟩
    rw [List.cons_append, he, hes]
    have harith : a + 1 + os.length = a + (os.length + 1) := by omega
    simp [harith, List.replicate_succ]

lemma countP_flatten_replicate {α : Type} (p : α → Bool) (c : List α) (n : Nat) :
    ((List.replicate n c).flatten).countP p = n * c.countP p := by
  induction n with
  | zero => simp
  | succ k ih => simp [List.replicate_succ, List.countP_append, ih, Nat.succ_mul]; ring

lemma range_map_split {α : Type} (f : Nat → α) (i n : Nat) (h : i < n) :
    ∃ tail : List α, (List.range n).map f =
      (List.range i).map f ++ f i :: tail := by
  obtain ⟨m, rfl⟩ : ∃ m, n = i + (m + 1) := ⟨n - i - 1, by omega⟩
  refine ⟨((List.range m).map (fun x => i + (x + 1))).map f, ?_⟩
  rw [List.range_add, List.map_append, List.range_succ_eq_map]
  simp [List.map_map, Function.comp]

/-- C1: for every poll sequence, if an iteration of poll_for_results receives
a parseable response whose status field equals "complete", the function
returns that exact payload immediately: the run issues exactly the requests
up to and including that iteration (no further HTTP request) and only the
sleeps of the earlier iterations (no further sleep). -/
theorem poll_stops_on_complete (server : Nat → PollOutcome) (request_id : String)
    (maxA i : Nat) (r : JsonVal)
    (hi : i < maxA)
    (hpre : ∀ j, j < i → continuesOutcome (server j) = true)
    (hsrv : server i = PollOutcome.payload r)
    (hc : isCompleteResult r = true) :
    (poll_for_results server request_id maxA).result = some r ∧
    numGets (poll_for_results server request_id maxA) = i + 1 ∧
    numSleeps (poll_for_results server request_id maxA) = i := by
  obtain ⟨tail, hsplit⟩ := range_map_split server i maxA hi
  rw [hsrv] at hsplit
  have hmem : ∀ o ∈ (List.range i).map server, continuesOutcome o = true := by
    intro o ho
    obtain ⟨j, hj, rfl⟩ := List.mem_map.mp ho
    exact hpre j (List.mem_range.mp hj)
  obtain ⟨entries, hlen, hrun⟩ :=
    pollAux_continue_run (retrieveStatusUrl request_id) maxA
      ((List.range i).map server) (PollOutcome.payload r :: tail) 1 hmem
  obtain ⟨ents2, hfin⟩ :=
    pollStep_complete_finish (1 + ((List.range i).map server).length) maxA r hc
  have hfin2 := pollAux_cons_finish (retrieveStatusUrl request_id) maxA
    (1 + ((List.range i).map server).length) (PollOutcome.payload r) tail ents2 r hfin
  unfold poll_for_results
  rw [hsplit, hrun, hfin2]
  simp [numGets, numSleeps, List.countP_append, countP_flatten_replicate,
    List.countP_cons, isGetEvent, isSleepEvent]

theorem poll_stops_on_complete_witness :
    (1 < 3) ∧
    (∀ j, j < 1 → continuesOutcome (demoServerComplete j) = true) ∧
    demoServerComplete 1 = PollOutcome.payload completeResult ∧
    isCompleteResult completeResult = true ∧
    ((poll_for_results demoServerComplete "req-1" 3).result = some completeResult ∧
     numGets (poll_for_results demoServerComplete "req-1" 3) = 1 + 1 ∧
     numSleeps (poll_for_results demoServerComplete "req-1" 3) = 1) := by
  refine ⟨by omega, by decide, rfl, by decide, ?_⟩
  exact poll_stops_on_complete demoServerComplete "req-1" 3 1 completeResult
    (by omega) (by decide) rfl (by decide)

/-- C2 counterexample: the claim says any input other than exactly
"community" resolves to "private", but the source strips and lowercases the
input first, so "COMMUNITY" resolves to "community". -/
theorem mode_claim_counterexample :
    (demo_request "" "n" "COMMUNITY").mode = "community" ∧
    ("COMMUNITY" : String) ≠ "community" := by
  exact ⟨by decide, by decide⟩

/-- C2 (amended): the mode sent in the retrieval request is "community"
exactly when the user input, stripped of surrounding whitespace and
lowercased, equals "community"; every other input yields "private". -/
theorem mode_follows_normalized_input (u f m : String) :
    ((demo_request u f m).mode = "community" ↔
      py_lower (py_strip m) = "community") ∧
    ((demo_request u f m).mode = "community" ∨
      (demo_request u f m).mode = "private") := by
  by_cases h : py_lower (py_strip m) = "community" <;>
    simp [demo_request, build_request_body, resolve_mode, h]

/-- C3: for every request id, poll_for_results with maxAttempts = 3 against a
server that answers every poll with status "running" issues exactly 3 GET
requests to the status endpoint with a 2-second sleep between consecutive
requests (and one after the last), then returns the timeout sentinel None. -/
theorem poll_three_running_times_out (request_id : String) :
    (poll_for_results demoServerRunning request_id 3).events =
      [Event.get (retrieveStatusUrl request_id), Event.sleep 2,
       Event.get (retrieveStatusUrl request_id), Event.sleep 2,
       Event.get (retrieveStatusUrl request_id), Event.sleep 2] ∧
    (poll_for_results demoServerRunning request_id 3).result = none :=
  ⟨rfl, rfl⟩

/-- C4: for every poll sequence, if an iteration of poll_for_results receives
a parseable response whose status is "failed" or "canceled", the function
returns that result immediately as terminal: the run issues exactly the
requests up to and including that iteration (no retry, no further HTTP
request) and only the sleeps of the earlier iterations. -/
theorem poll_stops_on_failed_or_canceled (server : Nat → PollOutcome)
    (request_id : String) (maxA i : Nat) (r : JsonVal)
    (hi : i < maxA)
    (hpre : ∀ j, j < i → continuesOutcome (server j) = true)
    (hsrv : server i = PollOutcome.payload r)
    (hterm : isTerminalFailure r = true) :
    (poll_for_results server request_id maxA).result = some r ∧
    numGets (poll_for_results server request_id maxA) = i + 1 ∧
    numSleeps (poll_for_results server request_id maxA) = i := by
  obtain ⟨tail, hsplit⟩ := range_map_split server i maxA hi
  rw [hsrv] at hsplit
  have hmem : ∀ o ∈ (List.range i).map server, continuesOutcome o = true := by
    intro o ho
    obtain ⟨j, hj, rfl⟩ := List.mem_map.mp ho
    exact hpre j (List.mem_range.mp hj)
  obtain ⟨entries, hlen, hrun⟩ :=
    pollAux_continue_run (retrieveStatusUrl request_id) maxA
      ((List.range i).map server) (PollOutcome.payload r :: tail) 1 hmem
  obtain ⟨ents2, hfin⟩ :=
    pollStep_terminal_finish (1 + ((List.range i).map server).length) maxA r hterm
  have hfin2 := pollAux_cons_finish (retrieveStatusUrl request_id) maxA
    (1 + ((List.range i).map server).length) (PollOutcome.payload r) tail ents2 r hfin
  unfold poll_for_results
  rw [hsplit, hrun, hfin2]
  simp [numGets, numSleeps, List.countP_append, countP_flatten_replicate,
    List.countP_cons, isGetEvent, isSleepEvent]

theorem poll_stops_on_failed_or_canceled_witness :
    (1 < 4) ∧
    (∀ j, j < 1 → continuesOutcome (demoServerFailed j) = true) ∧
    demoServerFailed 1 = PollOutcome.payload failedResult ∧
    isTerminalFailure failedResult = true ∧
    ((poll_for_results demoServerFailed "req-4" 4).result = some failedResult ∧
     numGets (poll_for_results demoServerFailed "req-4" 4) = 1 + 1 ∧
     numSleeps (poll_for_results demoServerFailed "req-4" 4) = 1) := by
  refine ⟨by omega, by decide, rfl, by decide, ?_⟩
  exact poll_stops_on_failed_or_canceled demoServerFailed "req-4" 4 1 failedResult
    (by omega) (by decide) rfl (by decide)

/-- C5 counterexample: the claim says every non-2xx response from the submit
endpoint yields the failure indicator None, but requests.Response.ok is true
for every status code below 400, so a 300 response with a parseable JSON body
is returned as a success payload. -/
theorem submit_non2xx_claim_counterexample :
    (¬ (200 ≤ 300 ∧ 300 ≤ 299)) ∧
    (submit_retrieve_request "https://example.com" false "private"
        (HttpOutcome.response 300 ""
          (Except.ok (JsonVal.obj [("requestId", JsonVal.str "r1")])))).2.2 =
      some (JsonVal.obj [("requestId", JsonVal.str "r1")]) :=
  ⟨by omega, rfl⟩

/-- C5 (amended): for every response from the submit endpoint whose status
code is 400 or above (i.e. for which requests.Response.ok is false),
submit_retrieve_request logs the status code and response body, returns the
failure indicator None, and does not raise to its caller (the model is a
total function: the try/except of the source catches everything).  Responses
with codes below 400, including 3xx codes surfaced to the client, are not
treated this way. -/
theorem submit_not_ok_soft_fail (u : String) (fr : Bool) (md : String)
    (code : Nat) (text : String) (body : Except String JsonVal)
    (h : 400 ≤ code) :
    (submit_retrieve_request u fr md (HttpOutcome.response code text body)).2.1 =
      [SubmitLog.apiError code text] ∧
    (submit_retrieve_request u fr md (HttpOutcome.response code text body)).2.2 =
      none := by
  have hok : response_ok code = false := by
    simp [response_ok]
    omega
  simp [submit_retrieve_request, hok]

theorem submit_not_ok_soft_fail_witness :
    (400 ≤ 404) ∧
    ((submit_retrieve_request "https://example.com" false "private"
        (HttpOutcome.response 404 "not found" (Except.error "no json"))).2.1 =
      [SubmitLog.apiError 404 "not found"] ∧
     (submit_retrieve_request "https://example.com" false "private"
        (HttpOutcome.response 404 "not found" (Except.error "no json"))).2.2 =
      none) := by
  exact ⟨by omega, submit_not_ok_soft_fail "https://example.com" false "private"
    404 "not found" (Except.error "no json") (by omega)⟩

/-- C6: for every successfully fetched and parsed payload, the page-content
text download_page_data prints is exactly the first 500 characters of the
pretty-printed form followed by the truncation marker "..." when the
pretty-printed form is longer than 500 characters, and the pretty-printed
form unmodified when it is shorter. -/
theorem download_truncates_at_500 (page_data : JsonVal) :
    ((json_dumps_indent2 page_data).length > 500 →
      download_page_data_print page_data =
        py_slice_take (json_dumps_indent2 page_data) 500 ++ "...") ∧
    ((json_dumps_indent2 page_data).length < 500 →
      download_page_data_print page_data = json_dumps_indent2 page_data) := by
  constructor
  · intro h
    simp [download_page_data_print, h]
  · intro h
    have hnot : ¬ (json_dumps_indent2 page_data).length > 500 := by omega
    simp [download_page_data_print, hnot]

set_option maxRecDepth 8000 in
theorem download_truncates_at_500_witness :
    ((json_dumps_indent2 bigPagePayload).length > 500 ∧
     download_page_data_print bigPagePayload =
       py_slice_take (json_dumps_indent2 bigPagePayload) 500 ++ "...") ∧
    ((json_dumps_indent2 smallPagePayload).length < 500 ∧
     download_page_data_print smallPagePayload =
       json_dumps_indent2 smallPagePayload) := by
  have h1 : (json_dumps_indent2 bigPagePayload).length > 500 := by decide
  have h2 : (json_dumps_indent2 smallPagePayload).length < 500 := by decide
  exact ⟨⟨h1, (download_truncates_at_500 bigPagePayload).1 h1⟩,
         ⟨h2, (download_truncates_at_500 smallPagePayload).2 h2⟩⟩

/-- C7: for every poll iteration in which the HTTP request raises a transport
error or the response cannot be parsed (both surface as the exception caught
on source line 194), poll_for_results logs the error with the attempt
counter, issues the fixed 2-second sleep, and continues with the remaining
iterations of the attempt budget — the run neither returns nor raises at
that iteration: its events, log and result are those of the continuation. -/
theorem poll_error_iteration_continues (url : String) (maxA attempt : Nat)
    (msg : String) (rest : List PollOutcome) :
    pollAux url maxA (PollOutcome.exn msg :: rest) attempt =
      ⟨Event.get url :: Event.sleep 2 ::
         (pollAux url maxA rest (attempt + 1)).events,
       LogEntry.errorLine attempt maxA msg ::
         (pollAux url maxA rest (attempt + 1)).log,
       (pollAux url maxA rest (attempt + 1)).result⟩ :=
  rfl

/-- C8: for every invocation, if the API key obtained from the command line
or (stripped) from the interactive prompt is empty, main prints the usage
message and exits with the non-zero status 1, never constructing a client
and hence never issuing an HTTP request. -/
theorem missing_api_key_exits (argv : List String) (promptAnswer : String)
    (h : resolved_api_key argv promptAnswer = "") :
    (main_model argv promptAnswer).usagePrinted = true ∧
    (main_model argv promptAnswer).exitCode = some 1 ∧
    (main_model argv promptAnswer).exitCode ≠ some 0 ∧
    (main_model argv promptAnswer).clientKey = none := by
  simp [main_model, h]

theorem missing_api_key_exits_witness :
    resolved_api_key ["viewengine_demo.py"] "   " = "" ∧
    ((main_model ["viewengine_demo.py"] "   ").usagePrinted = true ∧
     (main_model ["viewengine_demo.py"] "   ").exitCode = some 1 ∧
     (main_model ["viewengine_demo.py"] "   ").exitCode ≠ some 0 ∧
     (main_model ["viewengine_demo.py"] "   ").clientKey = none) := by
  exact ⟨by decide, missing_api_key_exits ["viewengine_demo.py"] "   " (by decide)⟩

/-- C9: a poll iteration whose 2xx response parses to a falsy JSON value is
treated as a failed deserialization: the iteration logs the
failed-to-deserialize line, sleeps the fixed 2 seconds, consumes its attempt,
and the run continues with the remaining iterations; and such a payload is
never returned — even a server answering every poll with it makes
poll_for_results return the timeout sentinel None. -/
theorem falsy_payload_consumes_attempt (url : String) (maxA attempt : Nat)
    (r : JsonVal) (rest : List PollOutcome) (request_id : String)
    (h : pyFalsy r = true) :
    (pollAux url maxA (PollOutcome.payload r :: rest) attempt =
      ⟨Event.get url :: Event.sleep 2 ::
         (pollAux url maxA rest (attempt + 1)).events,
       LogEntry.deserializeFailed attempt maxA ::
         (pollAux url maxA rest (attempt + 1)).log,
       (pollAux url maxA rest (attempt + 1)).result⟩) ∧
    (poll_for_results (fun _ => PollOutcome.payload r) request_id maxA).result =
      none := by
  constructor
  · simp [pollAux, pollStep, h]
  · have hmem : ∀ o ∈ (List.range maxA).map (fun _ => PollOutcome.payload r),
        continuesOutcome o = true := by
      intro o ho
      obtain ⟨j, _, rfl⟩ := List.mem_map.mp ho
      simp [continuesOutcome, h]
    obtain ⟨entries, hlen, hrun⟩ :=
      pollAux_continue_run (retrieveStatusUrl request_id) maxA
        ((List.range maxA).map (fun _ => PollOutcome.payload r)) [] 1 hmem
    unfold poll_for_results
    rw [← List.append_nil
      ((List.range maxA).map (fun _ => PollOutcome.payload r)), hrun]
    simp [pollAux]

theorem falsy_payload_consumes_attempt_witness :
    pyFalsy (JsonVal.obj []) = true ∧
    ((pollAux "u" 3 [PollOutcome.payload (JsonVal.obj [])] 1 =
      ⟨Event.get "u" :: Event.sleep 2 :: (pollAux "u" 3 [] (1 + 1)).events,
       LogEntry.deserializeFailed 1 3 :: (pollAux "u" 3 [] (1 + 1)).log,
       (pollAux "u" 3 [] (1 + 1)).result⟩) ∧
     (poll_for_results (fun _ => PollOutcome.payload (JsonVal.obj [])) "r" 3).result =
       none) := by
  exact ⟨by decide, falsy_payload_consumes_attempt "u" 3 1 (JsonVal.obj []) []
    "r" (by decide)⟩

/-- C10: a run of poll_for_results in which no iteration sees a terminal
status performs exactly maxAttempts 2-second sleeps, one after every attempt
— the event trace is maxAttempts repetitions of a GET followed by a
2-second sleep, so the final attempt is followed by a trailing sleep before
the timeout sentinel None is returned (maxAttempts sleeps, not
maxAttempts - 1). -/
theorem poll_sleeps_after_every_attempt (server : Nat → PollOutcome)
    (request_id : String) (maxA : Nat)
    (hall : ∀ j, j < maxA → continuesOutcome (server j) = true) :
    (poll_for_results server request_id maxA).events =
      (List.replicate maxA
        [Event.get (retrieveStatusUrl request_id), Event.sleep 2]).flatten ∧
    (poll_for_results server request_id maxA).result = none ∧
    numSleeps (poll_for_results server request_id maxA) = maxA ∧
    numGets (poll_for_results server request_id maxA) = maxA := by
  have hmem : ∀ o ∈ (List.range maxA).map server, continuesOutcome o = true := by
    intro o ho
    obtain ⟨j, hj, rfl⟩ := List.mem_map.mp ho
    exact hall j (List.mem_range.mp hj)
  obtain ⟨entries, hlen, hrun⟩ :=
    pollAux_continue_run (retrieveStatusUrl request_id) maxA
      ((List.range maxA).map server) [] 1 hmem
  unfold poll_for_results
  rw [← List.append_nil ((List.range maxA).map server), hrun]
  simp [pollAux, numSleeps, numGets, List.countP_append,
    countP_flatten_replicate, List.countP_cons, isGetEvent, isSleepEvent]

theorem poll_sleeps_after_every_attempt_witness :
    (∀ j, j < 2 → continuesOutcome (demoServerRunning j) = true) ∧
    ((poll_for_results demoServerRunning "req-10" 2).events =
      (List.replicate 2
        [Event.get (retrieveStatusUrl "req-10"), Event.sleep 2]).flatten ∧
     (poll_for_results demoServerRunning "req-10" 2).result = none ∧
     numSleeps (poll_for_results demoServerRunning "req-10" 2) = 2 ∧
     numGets (poll_for_results demoServerRunning "req-10" 2) = 2) := by
  exact ⟨by decide, poll_sleeps_after_every_attempt demoServerRunning "req-10" 2
    (by decide)⟩
